import Mathlib

/-!
Shallow embedding of `src/benchkit/timeout.py`: a timeout decorator that
runs a guarded function inside a persistent, lazily started worker
subprocess and supervises it (restart on timeout, restart on crash).

Modelling choices, stated once:

* Machine-level concurrency is abstracted per the repository's own channel
  contract: the outcome of one invocation of the guarded function inside
  the worker is a `Beh` value (return a value, raise a Python error, hang
  past the deadline, or die without replying).  `Connection.poll(timeout)`
  followed by `recv` observes exactly one of: a delivered `(success,
  payload)` pair, a timeout (no response within the deadline, worker still
  running), or an EOF because the worker process died (then `recv` raises
  `EOFError`).
* Python's exception hierarchy is modelled just as far as the code
  inspects it: `except Exception` catches instances of `Exception`
  (`ExcClass.isExceptionInstance`), `except TimeoutError` catches
  instances of `TimeoutError` (`ExcClass.isTimeoutInstance`); `SystemExit`
  and `KeyboardInterrupt` derive only from `BaseException`.
* `cloudpickle.dumps`/`cloudpickle.loads` is the external serializer
  collaborator with `loads (dumps f) = f`; a serialized function is
  therefore represented by its semantics `A → Beh V`, and the number of
  `cloudpickle.loads` invocations performed by the worker loop is counted
  explicitly (`LoopRun.loads_count`).
* Process identities are natural numbers handed out by a monotone counter
  in an explicit system state `Sys`; `Sys.alive` is the set (as a list) of
  live worker process ids; `proc.is_alive()` is membership in it;
  `terminate()`/`join()` removes the pid.
-/

/-- Python exception classes, as far as `timeout.py` distinguishes them:
`except TimeoutError` (timeout.py line 182), `except Exception`
(lines 43 and 186), `EOFError` raised by `recv` on a dead peer, and the
`BaseException`-only classes (`SystemExit`, `KeyboardInterrupt`, …) that
`except Exception` does not catch. -/
inductive ExcClass : Type where
  | TimeoutErrorC : ExcClass
  | EOFErrorC : ExcClass
  | ValueErrorC : ExcClass
  | SystemExitC : ExcClass
  | KeyboardInterruptC : ExcClass
  | OtherExc : String → ExcClass
  | OtherBase : String → ExcClass
deriving DecidableEq, Repr

/-- Whether a raised value of this class is an instance of `Exception`
(and hence caught by an `except Exception` clause).  `SystemExit`,
`KeyboardInterrupt` and the other `BaseException`-only classes are not. -/
def ExcClass.isExceptionInstance : ExcClass → Bool
  | .SystemExitC => false
  | .KeyboardInterruptC => false
  | .OtherBase _ => false
  | _ => true

/-- Whether a raised value of this class is caught by `except TimeoutError`. -/
def ExcClass.isTimeoutInstance : ExcClass → Bool
  | .TimeoutErrorC => true
  | _ => false

/-- A raised Python error value: its class and its message. -/
structure PyError : Type where
  cls : ExcClass
  msg : String
deriving DecidableEq, Repr

/-- The observable behaviour of one invocation of the guarded function
inside the worker process:

* `ret v` — returns `v`, well within the deadline;
* `raiseE e` — raises the error value `e` (within the deadline);
* `hang` — still running when the deadline expires (sleep, infinite loop);
* `abort` — kills its own process without replying (OS-level abort,
  segmentation fault, forced kill). -/
inductive Beh (V : Type) : Type where
  | ret : V → Beh V
  | raiseE : PyError → Beh V
  | hang : Beh V
  | abort : Beh V
deriving DecidableEq, Repr

/-- The ambient process table: a fresh-pid counter and the list of live
worker process ids. -/
structure Sys : Type where
  nextId : Nat
  alive : List Nat
deriving DecidableEq, Repr

/-- Spawn a fresh process: hand out `nextId`, mark it alive. -/
def Sys.spawn (s : Sys) : Nat × Sys :=
  (s.nextId, { nextId := s.nextId + 1, alive := s.nextId :: s.alive })

/-- `proc.terminate(); proc.join()`: the pid is no longer alive. -/
def Sys.killPid (s : Sys) (pid : Nat) : Sys :=
  { s with alive := s.alive.filter (fun q => q ≠ pid) }

/-- Well-formedness of the process table: every live pid was handed out
by the counter.  Holds for every state reachable from `⟨0, []⟩`. -/
def Sys.wf (s : Sys) : Bool :=
  s.alive.all (fun p => p < s.nextId)

/-- The supervisor-side `Worker` object (timeout.py lines 54–103):
the cloudpickled function (represented by its semantics), the parent end
of the pipe, and the process handle.  `conn` and `proc` hold the id of
the pipe/process when one exists; `__init__` sets both to `None`. -/
structure WorkerSt (V A : Type) : Type where
  fn_bytes : A → Beh V
  conn : Option Nat
  proc : Option Nat

/-- `self.proc is None or not self.proc.is_alive()`, negated:
the guard of `ensure_started` (timeout.py line 72). -/
def procIsAlive (s : Sys) (p : Option Nat) : Bool :=
  match p with
  | none => false
  | some pid => s.alive.contains pid

/-- `Worker._start_worker` (timeout.py lines 75–82): create a fresh pipe
and process and start it.  The worker process is given only the child end
of the pipe (`args=(child_conn,)`); the pipe and the process are given
the same fresh id here since they are created together and discarded
together. -/
def start_worker {V A : Type} (w : WorkerSt V A) (s : Sys) :
    WorkerSt V A × Sys :=
  let p := s.spawn
  ({ w with conn := some p.1, proc := some p.1 }, p.2)

/-- `Worker.ensure_started` (timeout.py lines 70–73): start the worker
lazily if it is not running. -/
def ensure_started {V A : Type} (w : WorkerSt V A) (s : Sys) :
    WorkerSt V A × Sys :=
  if procIsAlive s w.proc then (w, s) else start_worker w s

/-- `Worker.kill` (timeout.py lines 89–103): best-effort `STOP` send
(no observable effect in the model), `terminate()` + `join()` when a
process exists, then clear both slots. -/
def kill {V A : Type} (w : WorkerSt V A) (s : Sys) : WorkerSt V A × Sys :=
  let s1 :=
    match w.proc with
    | none => s
    | some pid => s.killPid pid
  ({ w with conn := none, proc := none }, s1)

/-- `Worker.restart` (timeout.py lines 84–87): `kill` then
`_start_worker`.  The same `fn_bytes` is reused. -/
def restart {V A : Type} (w : WorkerSt V A) (s : Sys) : WorkerSt V A × Sys :=
  let p := kill w s
  start_worker p.1 p.2

/-- The `(success, payload)` pair the worker loop sends back for one
request, when it sends one (timeout.py lines 39–44): a normal return is
`(True, result)`; a raised `Exception` instance is caught and sent as
`(False, exc)`; a hang produces no response (yet) and a raised
non-`Exception` or an abort produces none ever. -/
def behResponse {V : Type} (b : Beh V) : Option (Bool × (V ⊕ PyError)) :=
  match b with
  | .ret v => some (true, Sum.inl v)
  | .raiseE e =>
      if e.cls.isExceptionInstance then some (false, Sum.inr e) else none
  | .hang => none
  | .abort => none

/-- Whether this behaviour kills the worker process: an abort does, and
so does a raised value that `except Exception` (timeout.py line 43) does
not catch — it propagates out of `_worker_loop` (the outer handler at
line 46 catches only `EOFError`) and the process terminates. -/
def behKillsWorker {V : Type} : Beh V → Bool
  | .raiseE e => !e.cls.isExceptionInstance
  | .abort => true
  | _ => false

/-- What `Worker.call` produces (timeout.py lines 108–137): either the
received `(success, payload)` pair split by its tag, or an exception
raised inside `call` itself — `TimeoutError` when `poll(timeout)` returns
falsy (line 133), or the `EOFError` that `recv` raises when the worker
died without replying. -/
inductive CallOutcome (V : Type) : Type where
  | respOk : V → CallOutcome V
  | respErr : PyError → CallOutcome V
  | raisedE : PyError → CallOutcome V
deriving DecidableEq, Repr

/-- `Worker.call(args, kwargs, timeout)` (timeout.py lines 108–137):
`ensure_started`; send `(fn_bytes, args, kwargs)`; the worker executes
the request with behaviour `fn_bytes args` (killing its own process when
the behaviour does); then `poll(timeout)`/`recv` observes the response,
a timeout, or the peer's death. -/
def Worker.call {V A : Type} (w : WorkerSt V A) (s : Sys) (x : A) :
    CallOutcome V × WorkerSt V A × Sys :=
  let p := ensure_started w s
  let w1 := p.1
  let b := w1.fn_bytes x
  let s2 :=
    if behKillsWorker b then
      match w1.proc with
      | some pid => p.2.killPid pid
      | none => p.2
    else p.2
  match behResponse b with
  | some (true, Sum.inl v) => (.respOk v, w1, s2)
  | some (_, Sum.inr e) => (.respErr e, w1, s2)
  | some (false, Sum.inl v) => (.respOk v, w1, s2)
  | none =>
      if behKillsWorker b then
        (.raisedE { cls := .EOFErrorC, msg := "EOFError" }, w1, s2)
      else
        (.raisedE { cls := .TimeoutErrorC, msg := "Worker timed out" },
         w1, s2)

/-- The caller-visible outcome of one guarded call: a returned value or a
raised error. -/
inductive WrapResult (V : Type) : Type where
  | ret : V → WrapResult V
  | raisedE : PyError → WrapResult V
deriving DecidableEq, Repr

/-- The `except` clauses of `wrapper` (timeout.py lines 182–188) applied
to an exception `e` escaping the `try` body: `except TimeoutError` →
restart, return `default`; `except Exception` → restart, re-raise;
anything else propagates uncaught. -/
def wrapperHandlers {V A : Type} (dflt : V) (e : PyError)
    (w : WorkerSt V A) (s : Sys) : WrapResult V × WorkerSt V A × Sys :=
  if e.cls.isTimeoutInstance then
    let p := restart w s
    (.ret dflt, p.1, p.2)
  else if e.cls.isExceptionInstance then
    let p := restart w s
    (.raisedE e, p.1, p.2)
  else
    (.raisedE e, w, s)

/-- `wrapper` (timeout.py lines 172–188): call the worker; on
`(True, payload)` return it; on `(False, payload)` execute
`raise payload` inside the `try`, so the raised callee error reaches the
same `except` clauses as the errors raised by `Worker.call` itself. -/
def wrapper {V A : Type} (dflt : V) (w : WorkerSt V A) (s : Sys) (x : A) :
    WrapResult V × WorkerSt V A × Sys :=
  let p := Worker.call w s x
  match p.1 with
  | .respOk v => (.ret v, p.2.1, p.2.2)
  | .respErr e => wrapperHandlers dflt e p.2.1 p.2.2
  | .raisedE e => wrapperHandlers dflt e p.2.1 p.2.2

/-- The value `timeout(seconds, default)` hands each decorated function:
the default plus a fresh `Worker` built from the function's bytes
(timeout.py lines 163–169), with no process started yet. -/
structure Guarded (V A : Type) : Type where
  dflt : V
  worker : WorkerSt V A

/-- `timeout(seconds, default)` (timeout.py lines 143–192): validate
`seconds` first — `ValueError("seconds must be > 0")` when
`seconds <= 0`, before any function is wrapped — otherwise return the
decorator, which serializes the function once and allocates its
supervisor slot. -/
def timeout {V A : Type} (seconds : ℚ) (dflt : V) :
    Except PyError ((A → Beh V) → Guarded V A) :=
  if seconds ≤ 0 then
    .error { cls := .ValueErrorC, msg := "seconds must be > 0" }
  else
    .ok fun f =>
      { dflt := dflt
        worker := { fn_bytes := f, conn := none, proc := none } }

/-- A message the supervisor can send on the channel (timeout.py lines
33–37): the `"STOP"` control message, or a `(fn_bytes, args, kwargs)`
request — the serialized function travels inside every request
(`self.conn.send((self.fn_bytes, args, kwargs))`, line 131). -/
inductive WireMsg (V A : Type) : Type where
  | stop : WireMsg V A
  | request : (A → Beh V) → A → WireMsg V A

/-- How a run of `_worker_loop` ended. -/
inductive LoopExit : Type where
  | stopped : LoopExit
  | eof : LoopExit
  | wedged : LoopExit
  | uncaught : PyError → LoopExit
  | aborted : LoopExit
deriving DecidableEq, Repr

/-- The observable trace of one run of `_worker_loop`: how many times
`cloudpickle.loads` ran, the responses sent (in order), and how the loop
ended. -/
structure LoopRun (V : Type) : Type where
  loads_count : Nat
  sent : List (Bool × (V ⊕ PyError))
  exit : LoopExit

/-- `_worker_loop` (timeout.py lines 22–48) run against a list of
incoming messages (an exhausted list is the `EOFError` branch: the peer
closed).  Every `request` is handled by `fn = cloudpickle.loads(fn_bytes)`
— one deserialization per request served, with no cache — then the
behaviour of `fn(*args, **kwargs)` decides: return → send
`(True, result)` and continue; raised `Exception` → send `(False, exc)`
and continue; raised non-`Exception` → escapes the loop, the process dies
with nothing sent for this request; hang → the loop is stuck executing;
abort → the process dies. -/
def worker_loop {V A : Type} : List (WireMsg V A) → LoopRun V
  | [] => { loads_count := 0, sent := [], exit := .eof }
  | .stop :: _ => { loads_count := 0, sent := [], exit := .stopped }
  | .request fnB x :: rest =>
      match fnB x with
      | .ret v =>
          let r := worker_loop rest
          { loads_count := r.loads_count + 1
            sent := (true, Sum.inl v) :: r.sent
            exit := r.exit }
      | .raiseE e =>
          if e.cls.isExceptionInstance then
            let r := worker_loop rest
            { loads_count := r.loads_count + 1
              sent := (false, Sum.inr e) :: r.sent
              exit := r.exit }
          else
            { loads_count := 1, sent := [], exit := .uncaught e }
      | .hang => { loads_count := 1, sent := [], exit := .wedged }
      | .abort => { loads_count := 1, sent := [], exit := .aborted }

/-- A concrete guarded function that always hangs. -/
def wHang : WorkerSt Int Nat :=
  { fn_bytes := fun _ => Beh.hang, conn := none, proc := none }

/-- The initial process table: nothing spawned yet. -/
def sys0 : Sys := { nextId := 0, alive := [] }

/-- A concrete guarded function that always raises
`ValueError("boom")`. -/
def wBoom : WorkerSt Int Nat :=
  { fn_bytes := fun _ =>
      Beh.raiseE { cls := ExcClass.ValueErrorC, msg := "boom" }
    conn := none, proc := none }

/-- A concrete guarded function that raises `TimeoutError("boom")`
itself (a completed execution whose error is a `TimeoutError`
instance). -/
def wTimeoutRaise : WorkerSt Int Nat :=
  { fn_bytes := fun _ =>
      Beh.raiseE { cls := ExcClass.TimeoutErrorC, msg := "boom" }
    conn := none, proc := none }

/-- A concrete guarded function that aborts its own process on input `0`
and returns `7` on every other input. -/
def wCrash : WorkerSt Int Nat :=
  { fn_bytes := fun n => if n = 0 then Beh.abort else Beh.ret 7
    conn := none, proc := none }

/-- A concrete guarded function that raises `SystemExit` — a
`BaseException` that is not an `Exception` instance. -/
def wExit : WorkerSt Int Nat :=
  { fn_bytes := fun _ =>
      Beh.raiseE { cls := ExcClass.SystemExitC, msg := "0" }
    conn := none, proc := none }

/-- A concrete worker whose process `0` is already running. -/
def wLive : WorkerSt Nat Nat :=
  { fn_bytes := fun _ => Beh.ret 0, conn := some 0, proc := some 0 }

/-- A process table in which pid `0` is alive. -/
def sysLive : Sys := { nextId := 1, alive := [0] }

/-- A concrete well-behaved function semantics: the successor
function. -/
def fSucc : Nat → Beh Nat := fun n => Beh.ret (n + 1)

/-!
Helper lemmas about the worker lifecycle, shared by the claim theorems.
-/

/-- Unfolding of `Sys.wf` membership: a live pid is below the counter. -/
theorem Sys.wf_lt {s : Sys} (h : s.wf = true) {p : Nat}
    (hp : p ∈ s.alive) : p < s.nextId := by
  simp only [Sys.wf, List.all_eq_true, decide_eq_true_eq] at h
  exact h p hp

/-- `ensure_started` leaves the serialized function untouched. -/
theorem ensure_started_fn {V A : Type} (w : WorkerSt V A) (s : Sys) :
    (ensure_started w s).1.fn_bytes = w.fn_bytes := by
  unfold ensure_started start_worker
  split <;> rfl

/-- A true `procIsAlive` check exhibits a live pid. -/
theorem procIsAlive_some {s : Sys} {p : Option Nat}
    (h : procIsAlive s p = true) : ∃ pid, p = some pid ∧ pid ∈ s.alive := by
  cases p with
  | none => simp [procIsAlive] at h
  | some pid => exact ⟨pid, rfl, by simpa [procIsAlive] using h⟩

/-- After `ensure_started` the worker has a process id and it is alive. -/
theorem ensure_started_proc {V A : Type} (w : WorkerSt V A) (s : Sys) :
    ∃ pid, (ensure_started w s).1.proc = some pid ∧
      pid ∈ (ensure_started w s).2.alive := by
  unfold ensure_started
  split
  · next h =>
    obtain ⟨pid, hp, hm⟩ := procIsAlive_some h
    exact ⟨pid, hp, hm⟩
  · exact ⟨s.nextId, rfl, by simp [start_worker, Sys.spawn]⟩

/-- `ensure_started` preserves well-formedness of the process table. -/
theorem ensure_started_wf {V A : Type} (w : WorkerSt V A) (s : Sys)
    (h : s.wf = true) : (ensure_started w s).2.wf = true := by
  unfold ensure_started start_worker Sys.spawn
  split
  · exact h
  · simp only [Sys.wf, List.all_eq_true, decide_eq_true_eq] at h ⊢
    intro p hp
    rcases List.mem_cons.mp hp with h1 | h1
    · exact h1 ▸ Nat.lt_succ_self s.nextId
    · exact Nat.lt_succ_of_lt (h p h1)

/-- Computation of `restart`: the fresh worker takes pid `s.nextId` for
both its process and its channel, keeps `fn_bytes`, and the process
table now lists the fresh pid plus the survivors of the kill. -/
theorem restart_spec {V A : Type} (w : WorkerSt V A) (s : Sys) :
    (restart w s).1.proc = some s.nextId ∧
    (restart w s).1.conn = some s.nextId ∧
    (restart w s).1.fn_bytes = w.fn_bytes ∧
    (restart w s).2.nextId = s.nextId + 1 ∧
    (restart w s).2.alive =
      s.nextId ::
        (match w.proc with
         | some pid => s.alive.filter (fun q => q ≠ pid)
         | none => s.alive) := by
  unfold restart kill start_worker Sys.spawn Sys.killPid
  match w.proc with
  | none => exact ⟨rfl, rfl, rfl, rfl, rfl⟩
  | some pid => exact ⟨rfl, rfl, rfl, rfl, rfl⟩

/-- Path equation: a fast successful call.  The worker replies
`(True, v)`; `wrapper` returns `v`; the only state change is the lazy
start. -/
theorem wrapper_ret_eq {V A : Type} (dflt : V) (w : WorkerSt V A) (s : Sys)
    (x : A) {v : V} (hb : w.fn_bytes x = Beh.ret v) :
    wrapper dflt w s x = (WrapResult.ret v, ensure_started w s) := by
  have hfn : (ensure_started w s).1.fn_bytes x = Beh.ret v := by
    rw [ensure_started_fn]; exact hb
  unfold wrapper Worker.call
  simp [hfn, behResponse, behKillsWorker]

/-- Path equation: a hang.  `poll(timeout)` returns falsy, `Worker.call`
raises `TimeoutError`, the `except TimeoutError` clause restarts the
worker and returns the default. -/
theorem wrapper_hang_eq {V A : Type} (dflt : V) (w : WorkerSt V A)
    (s : Sys) (x : A) (hb : w.fn_bytes x = Beh.hang) :
    wrapper dflt w s x =
      (WrapResult.ret dflt,
       restart (ensure_started w s).1 (ensure_started w s).2) := by
  have hfn : (ensure_started w s).1.fn_bytes x = Beh.hang := by
    rw [ensure_started_fn]; exact hb
  unfold wrapper Worker.call
  simp [hfn, behResponse, behKillsWorker, wrapperHandlers,
    ExcClass.isTimeoutInstance]

/-- Path equation: the callee raises an `Exception` instance.  The worker
sends `(False, e)`, `wrapper` executes `raise payload`, and the `except`
clauses restart the worker and then either return the default (when `e`
is a `TimeoutError` instance) or re-raise `e`. -/
theorem wrapper_err_eq {V A : Type} (dflt : V) (w : WorkerSt V A)
    (s : Sys) (x : A) {e : PyError} (hb : w.fn_bytes x = Beh.raiseE e)
    (he : e.cls.isExceptionInstance = true) :
    wrapper dflt w s x =
      ((if e.cls.isTimeoutInstance then WrapResult.ret dflt
        else WrapResult.raisedE e),
       restart (ensure_started w s).1 (ensure_started w s).2) := by
  have hfn : (ensure_started w s).1.fn_bytes x = Beh.raiseE e := by
    rw [ensure_started_fn]; exact hb
  unfold wrapper Worker.call
  by_cases ht : e.cls.isTimeoutInstance = true
  · simp [hfn, behResponse, behKillsWorker, wrapperHandlers, he, ht]
  · simp [hfn, behResponse, behKillsWorker, wrapperHandlers, he, ht]

/-- Path equation: the worker process dies without replying.  `poll`
observes the closed pipe, `recv` raises `EOFError`, and the
`except Exception` clause restarts the worker and re-raises it. -/
theorem wrapper_die_eq {V A : Type} (dflt : V) (w : WorkerSt V A)
    (s : Sys) (x : A) (hresp : behResponse (w.fn_bytes x) = none)
    (hkill : behKillsWorker (w.fn_bytes x) = true) :
    ∃ pid, (ensure_started w s).1.proc = some pid ∧
      wrapper dflt w s x =
        (WrapResult.raisedE { cls := ExcClass.EOFErrorC, msg := "EOFError" },
         restart (ensure_started w s).1
           ((ensure_started w s).2.killPid pid)) := by
  obtain ⟨pid, hp, _⟩ := ensure_started_proc w s
  have hresp1 : behResponse ((ensure_started w s).1.fn_bytes x) = none := by
    rw [ensure_started_fn]; exact hresp
  have hkill1 : behKillsWorker ((ensure_started w s).1.fn_bytes x) = true := by
    rw [ensure_started_fn]; exact hkill
  refine ⟨pid, hp, ?_⟩
  unfold wrapper Worker.call
  simp [hresp1, hkill1, hp, wrapperHandlers, ExcClass.isTimeoutInstance,
    ExcClass.isExceptionInstance]

/-- C1: when the worker produces no response within the deadline, the
wrapper kills the worker process (the old pid is no longer alive),
starts a fresh replacement with a fresh channel (discarding the old
one, so the slot is clean for the next call — the same `fn_bytes` is
kept), and returns `default` to the caller. -/
theorem C1_timeout_kill_restart_default {V A : Type}
    (dflt : V) (w : WorkerSt V A) (s : Sys) (x : A)
    (hwf : s.wf = true) (hb : w.fn_bytes x = Beh.hang) :
    ∃ pOld pNew,
      (ensure_started w s).1.proc = some pOld ∧
      (wrapper dflt w s x).1 = WrapResult.ret dflt ∧
      (wrapper dflt w s x).2.1.proc = some pNew ∧
      (wrapper dflt w s x).2.1.conn = some pNew ∧
      pNew ≠ pOld ∧
      pNew ∈ (wrapper dflt w s x).2.2.alive ∧
      pOld ∉ (wrapper dflt w s x).2.2.alive ∧
      (wrapper dflt w s x).2.1.fn_bytes = w.fn_bytes := by
  obtain ⟨pOld, hpo, hmem⟩ := ensure_started_proc w s
  have hwf1 := ensure_started_wf w s hwf
  have hlt : pOld < (ensure_started w s).2.nextId := Sys.wf_lt hwf1 hmem
  have heq := wrapper_hang_eq dflt w s x hb
  obtain ⟨h1, h2, h3, h4, h5⟩ :=
    restart_spec (ensure_started w s).1 (ensure_started w s).2
  rw [hpo] at h5
  refine ⟨pOld, (ensure_started w s).2.nextId, hpo, ?_, ?_, ?_, ?_, ?_, ?_, ?_⟩
  · rw [heq]
  · rw [heq]; exact h1
  · rw [heq]; exact h2
  · exact ne_of_gt hlt
  · rw [heq, h5]; exact List.mem_cons_self _ _
  · rw [heq, h5]
    intro hin
    rcases List.mem_cons.mp hin with hc | hc
    · exact absurd hc (ne_of_lt hlt)
    · have := (List.mem_filter.mp hc).2
      simp at this
  · rw [heq, h3, ensure_started_fn]

/-- Witness for C1: the hanging call with default `-1` from the initial
state. -/
theorem C1_timeout_kill_restart_default_witness :
    Sys.wf sys0 = true ∧ wHang.fn_bytes 0 = Beh.hang ∧
    ∃ pOld pNew,
      (ensure_started wHang sys0).1.proc = some pOld ∧
      (wrapper (-1 : Int) wHang sys0 0).1 = WrapResult.ret (-1) ∧
      (wrapper (-1 : Int) wHang sys0 0).2.1.proc = some pNew ∧
      (wrapper (-1 : Int) wHang sys0 0).2.1.conn = some pNew ∧
      pNew ≠ pOld ∧
      pNew ∈ (wrapper (-1 : Int) wHang sys0 0).2.2.alive ∧
      pOld ∉ (wrapper (-1 : Int) wHang sys0 0).2.2.alive ∧
      (wrapper (-1 : Int) wHang sys0 0).2.1.fn_bytes = wHang.fn_bytes :=
  ⟨by decide, rfl,
   C1_timeout_kill_restart_default (-1) wHang sys0 0 (by decide) rfl⟩

/-- C2: for every deadline `seconds > 0`, every default and every
function that completes without raising and within the deadline,
`timeout` construction succeeds and the guarded wrapper returns exactly
the function's return value `f x`, from any supervisor state. -/
theorem C2_fast_call_returns_value {V A : Type} (seconds : ℚ)
    (hpos : 0 < seconds) (dflt : V) (f : A → V) (s : Sys) (x : A) :
    ∃ mk, timeout (V := V) (A := A) seconds dflt = Except.ok mk ∧
      (wrapper (mk fun a => Beh.ret (f a)).dflt
        (mk fun a => Beh.ret (f a)).worker s x).1 = WrapResult.ret (f x) := by
  have hns : ¬ seconds ≤ 0 := not_le.mpr hpos
  refine ⟨fun f0 =>
    { dflt := dflt
      worker := { fn_bytes := f0, conn := none, proc := none } }, ?_, ?_⟩
  · unfold timeout
    rw [if_neg hns]
  · rw [wrapper_ret_eq _ _ _ _ (v := f x) rfl]

/-- Witness for C2: deadline `1`, default `0`, `f = Nat.succ`, input
`41`. -/
theorem C2_fast_call_returns_value_witness :
    (0 : ℚ) < 1 ∧
    ∃ mk, timeout (V := Nat) (A := Nat) 1 0 = Except.ok mk ∧
      (wrapper (mk fun a => Beh.ret (Nat.succ a)).dflt
        (mk fun a => Beh.ret (Nat.succ a)).worker sys0 41).1 =
        WrapResult.ret (Nat.succ 41) :=
  ⟨by norm_num, C2_fast_call_returns_value 1 (by norm_num) 0 Nat.succ sys0 41⟩

/-- C3, counterexample: the guarded function raises
`TimeoutError("boom")` — a completed execution whose `Err` response the
worker delivers — yet the guarded call returns the default `-1` instead
of surfacing the error: `raise payload` inside the `try` is caught by
the `except TimeoutError` clause (timeout.py line 182). -/
theorem C3_callee_timeouterror_returns_default_cex :
    (wrapper (-1 : Int) wTimeoutRaise sys0 0).1 = WrapResult.ret (-1) := by
  rfl

/-- C3, amended: for every callee error `E` that is an `Exception`
instance but not a `TimeoutError` instance, the guarded call re-raises
`E` itself — same identity and message — and never returns `default` in
its place.  (A callee-raised `TimeoutError` is instead swallowed by the
timeout handler and replaced by `default`.) -/
theorem C3_callee_error_propagated_amended {V A : Type}
    (dflt : V) (w : WorkerSt V A) (s : Sys) (x : A) {e : PyError}
    (hb : w.fn_bytes x = Beh.raiseE e)
    (he : e.cls.isExceptionInstance = true)
    (ht : e.cls.isTimeoutInstance = false) :
    (wrapper dflt w s x).1 = WrapResult.raisedE e := by
  rw [wrapper_err_eq dflt w s x hb he]
  simp [ht]

/-- Witness for C3 (amended) at `ValueError("boom")`. -/
theorem C3_callee_error_propagated_amended_witness :
    wBoom.fn_bytes 0 =
      Beh.raiseE { cls := ExcClass.ValueErrorC, msg := "boom" } ∧
    ExcClass.ValueErrorC.isExceptionInstance = true ∧
    ExcClass.ValueErrorC.isTimeoutInstance = false ∧
    (wrapper (-1 : Int) wBoom sys0 0).1 =
      WrapResult.raisedE { cls := ExcClass.ValueErrorC, msg := "boom" } :=
  ⟨rfl, rfl, rfl,
   C3_callee_error_propagated_amended (-1) wBoom sys0 0 rfl rfl rfl⟩

/-- C4, counterexample: after a call in which the guarded function
raised `ValueError("boom")` (an `Err` response delivered by the worker),
the worker is NOT reused: the `except Exception` clause (timeout.py
lines 186–188) calls `worker.restart()`.  Starting from the initial
state, pid `0` served the call, yet afterwards the slot holds the fresh
pid `1` and pid `0` is no longer alive. -/
theorem C4_err_keeps_worker_alive_cex :
    (wrapper (-1 : Int) wBoom sys0 0).2.1.proc = some 1 ∧
    (wrapper (-1 : Int) wBoom sys0 0).2.2.alive = [1] ∧
    (0 : Nat) ∉ (wrapper (-1 : Int) wBoom sys0 0).2.2.alive := by
  refine ⟨rfl, rfl, by decide⟩

/-- C4, amended: after a call in which the guarded function raised an
`Exception` (the worker delivered an `Err` response), the wrapper
restarts the worker before surfacing the outcome: the process that
served the call is killed and a fresh process with a fresh channel takes
the slot (keeping the same `fn_bytes`); the callee's own failure does
trigger a kill and restart. -/
theorem C4_err_restarts_worker_amended {V A : Type}
    (dflt : V) (w : WorkerSt V A) (s : Sys) (x : A) {e : PyError}
    (hwf : s.wf = true) (hb : w.fn_bytes x = Beh.raiseE e)
    (he : e.cls.isExceptionInstance = true) :
    ∃ pOld pNew,
      (ensure_started w s).1.proc = some pOld ∧
      (wrapper dflt w s x).2.1.proc = some pNew ∧
      (wrapper dflt w s x).2.1.conn = some pNew ∧
      pNew ≠ pOld ∧
      pNew ∈ (wrapper dflt w s x).2.2.alive ∧
      pOld ∉ (wrapper dflt w s x).2.2.alive ∧
      (wrapper dflt w s x).2.1.fn_bytes = w.fn_bytes := by
  obtain ⟨pOld, hpo, hmem⟩ := ensure_started_proc w s
  have hwf1 := ensure_started_wf w s hwf
  have hlt : pOld < (ensure_started w s).2.nextId := Sys.wf_lt hwf1 hmem
  have heq := wrapper_err_eq dflt w s x hb he
  obtain ⟨h1, h2, h3, h4, h5⟩ :=
    restart_spec (ensure_started w s).1 (ensure_started w s).2
  rw [hpo] at h5
  refine ⟨pOld, (ensure_started w s).2.nextId, hpo, ?_, ?_, ?_, ?_, ?_, ?_⟩
  · rw [heq]; exact h1
  · rw [heq]; exact h2
  · exact ne_of_gt hlt
  · rw [heq, h5]; exact List.mem_cons_self _ _
  · rw [heq, h5]
    intro hin
    rcases List.mem_cons.mp hin with hc | hc
    · exact absurd hc (ne_of_lt hlt)
    · have := (List.mem_filter.mp hc).2
      simp at this
  · rw [heq, h3, ensure_started_fn]

/-- Witness for C4 (amended) at `ValueError("boom")` from the initial
state. -/
theorem C4_err_restarts_worker_amended_witness :
    Sys.wf sys0 = true ∧
    wBoom.fn_bytes 0 =
      Beh.raiseE { cls := ExcClass.ValueErrorC, msg := "boom" } ∧
    ExcClass.ValueErrorC.isExceptionInstance = true ∧
    ∃ pOld pNew,
      (ensure_started wBoom sys0).1.proc = some pOld ∧
      (wrapper (-1 : Int) wBoom sys0 0).2.1.proc = some pNew ∧
      (wrapper (-1 : Int) wBoom sys0 0).2.1.conn = some pNew ∧
      pNew ≠ pOld ∧
      pNew ∈ (wrapper (-1 : Int) wBoom sys0 0).2.2.alive ∧
      pOld ∉ (wrapper (-1 : Int) wBoom sys0 0).2.2.alive ∧
      (wrapper (-1 : Int) wBoom sys0 0).2.1.fn_bytes = wBoom.fn_bytes :=
  ⟨by decide, rfl, rfl,
   C4_err_restarts_worker_amended (-1) wBoom sys0 0 (by decide) rfl rfl⟩

/-- C5: when the worker process dies without sending a response, the
guarded call raises the distinct crash error (`EOFError` from `recv` on
the closed pipe) — never the default — the worker is replaced by a
fresh process, and a subsequent call on the same guard (here one whose
behaviour returns `v`) succeeds normally. -/
theorem C5_crash_raises_distinct_error_and_recovers {V A : Type}
    (dflt : V) (w : WorkerSt V A) (s : Sys) (x y : A) {v : V}
    (hwf : s.wf = true)
    (hresp : behResponse (w.fn_bytes x) = none)
    (hkill : behKillsWorker (w.fn_bytes x) = true)
    (hnext : w.fn_bytes y = Beh.ret v) :
    (wrapper dflt w s x).1 =
      WrapResult.raisedE { cls := ExcClass.EOFErrorC, msg := "EOFError" } ∧
    (wrapper dflt w s x).1 ≠ WrapResult.ret dflt ∧
    (∃ pOld pNew,
      (ensure_started w s).1.proc = some pOld ∧
      (wrapper dflt w s x).2.1.proc = some pNew ∧
      pNew ≠ pOld ∧
      pNew ∈ (wrapper dflt w s x).2.2.alive ∧
      pOld ∉ (wrapper dflt w s x).2.2.alive) ∧
    (wrapper dflt (wrapper dflt w s x).2.1 (wrapper dflt w s x).2.2 y).1 =
      WrapResult.ret v := by
  obtain ⟨pid, hp, heq⟩ := wrapper_die_eq dflt w s x hresp hkill
  obtain ⟨pid0, hpo, hmem⟩ := ensure_started_proc w s
  have h0 : pid0 = pid := Option.some.inj (hpo.symm.trans hp)
  have hmem2 : pid ∈ (ensure_started w s).2.alive := h0 ▸ hmem
  have hwf1 := ensure_started_wf w s hwf
  have hlt : pid < (ensure_started w s).2.nextId := Sys.wf_lt hwf1 hmem2
  obtain ⟨h1, h2, h3, h4, h5⟩ :=
    restart_spec (ensure_started w s).1
      ((ensure_started w s).2.killPid pid)
  rw [hp] at h5
  refine ⟨?_, ?_, ⟨pid, (ensure_started w s).2.nextId, hp, ?_, ?_, ?_, ?_⟩, ?_⟩
  · rw [heq]
  · rw [heq]; simp
  · rw [heq]; exact h1
  · exact ne_of_gt hlt
  · rw [heq, h5]; exact List.mem_cons_self _ _
  · rw [heq, h5]
    intro hin
    rcases List.mem_cons.mp hin with hc | hc
    · exact absurd hc (ne_of_lt hlt)
    · have := (List.mem_filter.mp hc).2
      simp at this
  · have hb2 : (restart (ensure_started w s).1
        ((ensure_started w s).2.killPid pid)).1.fn_bytes y = Beh.ret v := by
      rw [h3, ensure_started_fn]; exact hnext
    rw [heq, wrapper_ret_eq _ _ _ _ hb2]

/-- Witness for C5: `wCrash` aborts its process on input `0` and
returns `7` on input `1`, starting from the initial state. -/
theorem C5_crash_raises_distinct_error_and_recovers_witness :
    Sys.wf sys0 = true ∧
    behResponse (wCrash.fn_bytes 0) = none ∧
    behKillsWorker (wCrash.fn_bytes 0) = true ∧
    wCrash.fn_bytes 1 = Beh.ret 7 ∧
    ((wrapper (-1 : Int) wCrash sys0 0).1 =
      WrapResult.raisedE { cls := ExcClass.EOFErrorC, msg := "EOFError" } ∧
    (wrapper (-1 : Int) wCrash sys0 0).1 ≠ WrapResult.ret (-1) ∧
    (∃ pOld pNew,
      (ensure_started wCrash sys0).1.proc = some pOld ∧
      (wrapper (-1 : Int) wCrash sys0 0).2.1.proc = some pNew ∧
      pNew ≠ pOld ∧
      pNew ∈ (wrapper (-1 : Int) wCrash sys0 0).2.2.alive ∧
      pOld ∉ (wrapper (-1 : Int) wCrash sys0 0).2.2.alive) ∧
    (wrapper (-1 : Int) (wrapper (-1 : Int) wCrash sys0 0).2.1
        (wrapper (-1 : Int) wCrash sys0 0).2.2 1).1 =
      WrapResult.ret 7) :=
  ⟨by decide, rfl, rfl, rfl,
   C5_crash_raises_distinct_error_and_recovers (-1) wCrash sys0 0 1
     (by decide) rfl rfl rfl⟩

/-- C6: `timeout(seconds, default)` with `seconds ≤ 0` fails at
guard-construction time with `ValueError("seconds must be > 0")` —
before any function is wrapped, since the check precedes the decorator
(timeout.py lines 159–161) — and with `seconds > 0` construction
succeeds without raising. -/
theorem C6_nonpositive_seconds_raises {V A : Type} (seconds : ℚ)
    (dflt : V) :
    (seconds ≤ 0 →
      timeout (V := V) (A := A) seconds dflt =
        Except.error
          { cls := ExcClass.ValueErrorC, msg := "seconds must be > 0" }) ∧
    (0 < seconds →
      ∃ mk, timeout (V := V) (A := A) seconds dflt = Except.ok mk) := by
  constructor
  · intro h
    unfold timeout
    rw [if_pos h]
  · intro h
    unfold timeout
    rw [if_neg (not_le.mpr h)]
    exact ⟨_, rfl⟩

/-- Witness for C6 at `seconds = 0` (rejected) and `seconds = 1`
(accepted). -/
theorem C6_nonpositive_seconds_raises_witness :
    (timeout (V := Int) (A := Nat) 0 (-1) =
      Except.error
        { cls := ExcClass.ValueErrorC, msg := "seconds must be > 0" }) ∧
    (∃ mk, timeout (V := Int) (A := Nat) 1 (-1) = Except.ok mk) :=
  ⟨(C6_nonpositive_seconds_raises 0 (-1)).1 (by norm_num),
   (C6_nonpositive_seconds_raises 1 (-1)).2 (by norm_num)⟩

/-- C7, counterexample: serving two requests makes the worker loop run
`cloudpickle.loads` twice — there is no first-call-only reconstruction
and no cache (`fn = cloudpickle.loads(fn_bytes)` at timeout.py line 40
runs for every request, and line 131 sends `fn_bytes` inside every
request). -/
theorem C7_cached_reconstruction_cex :
    (worker_loop
      [WireMsg.request fSucc 1, WireMsg.request fSucc 2]).loads_count = 2 ∧
    ¬ (worker_loop
      [WireMsg.request fSucc 1, WireMsg.request fSucc 2]).loads_count ≤ 1 := by
  constructor
  · rfl
  · decide

/-- C7, amended: the serialized unit of work is not handed to the worker
at spawn time (the process receives only the channel); instead it
travels inside every request message, and the worker loop deserializes
it once per request it serves: after serving the requests for inputs
`xs` (each of which produces a response), exactly `xs.length`
deserializations have occurred. -/
theorem C7_per_request_deserialization_amended {V A : Type}
    (fnB : A → Beh V) (xs : List A)
    (h : ∀ x ∈ xs, (behResponse (fnB x)).isSome = true) :
    (worker_loop (xs.map fun x => WireMsg.request fnB x)).loads_count
      = xs.length := by
  induction xs with
  | nil => rfl
  | cons a as ih =>
      have ha := h a (List.mem_cons_self a as)
      have hrest : ∀ x ∈ as, (behResponse (fnB x)).isSome = true :=
        fun x hx => h x (List.mem_cons_of_mem a hx)
      cases hb : fnB a with
      | ret v =>
          simp [worker_loop, hb, ih hrest]
      | raiseE e =>
          rw [hb] at ha
          by_cases he : e.cls.isExceptionInstance = true
          · simp [worker_loop, hb, he, ih hrest]
          · simp [behResponse, he] at ha
      | hang => rw [hb] at ha; simp [behResponse] at ha
      | abort => rw [hb] at ha; simp [behResponse] at ha

/-- Witness for C7 (amended): three successor requests, three
deserializations. -/
theorem C7_per_request_deserialization_amended_witness :
    (∀ x ∈ [1, 2, 3], (behResponse (fSucc x)).isSome = true) ∧
    (worker_loop
      ([1, 2, 3].map fun x => WireMsg.request fSucc x)).loads_count = 3 :=
  ⟨by decide,
   C7_per_request_deserialization_amended fSucc [1, 2, 3] (by decide)⟩

/-- C9: `ensure_started` is idempotent.  With a live worker it changes
nothing (same worker record, same process table, so same process, same
channel and no new spawn); with no live worker it spawns exactly one new
process, which takes both the `proc` and `conn` slots, increments the
pid counter once and keeps `fn_bytes`; and running it twice in a row
leaves exactly the state of running it once. -/
theorem C9_ensure_started_idempotent {V A : Type} (w : WorkerSt V A)
    (s : Sys) :
    (procIsAlive s w.proc = true → ensure_started w s = (w, s)) ∧
    (procIsAlive s w.proc = false →
      (ensure_started w s).1.proc = some s.nextId ∧
      (ensure_started w s).1.conn = some s.nextId ∧
      (ensure_started w s).1.fn_bytes = w.fn_bytes ∧
      (ensure_started w s).2.nextId = s.nextId + 1 ∧
      (ensure_started w s).2.alive = s.nextId :: s.alive) ∧
    ensure_started (ensure_started w s).1 (ensure_started w s).2 =
      ensure_started w s := by
  refine ⟨?_, ?_, ?_⟩
  · intro h
    unfold ensure_started
    rw [if_pos h]
  · intro h
    unfold ensure_started
    rw [if_neg (by simp [h])]
    exact ⟨rfl, rfl, rfl, rfl, rfl⟩
  · by_cases h : procIsAlive s w.proc = true
    · have h1 : ensure_started w s = (w, s) := by
        unfold ensure_started; rw [if_pos h]
      rw [h1]
      exact h1
    · have h1 : ensure_started w s = start_worker w s := by
        unfold ensure_started
        rw [if_neg h]
      have hps : procIsAlive (start_worker w s).2
          (start_worker w s).1.proc = true := by
        simp [start_worker, Sys.spawn, procIsAlive]
      rw [h1]
      unfold ensure_started
      rw [if_pos hps]

/-- Witness for C9: the live case at `wLive`/`sysLive` (pid `0` running)
and the not-running case at `wHang`/`sys0`. -/
theorem C9_ensure_started_idempotent_witness :
    procIsAlive sysLive wLive.proc = true ∧
    ensure_started wLive sysLive = (wLive, sysLive) ∧
    procIsAlive sys0 wHang.proc = false ∧
    ((ensure_started wHang sys0).1.proc = some 0 ∧
     (ensure_started wHang sys0).1.conn = some 0 ∧
     (ensure_started wHang sys0).1.fn_bytes = wHang.fn_bytes ∧
     (ensure_started wHang sys0).2.nextId = 1 ∧
     (ensure_started wHang sys0).2.alive = [0]) ∧
    ensure_started (ensure_started wHang sys0).1
        (ensure_started wHang sys0).2 =
      ensure_started wHang sys0 :=
  ⟨by decide,
   (C9_ensure_started_idempotent wLive sysLive).1 (by decide),
   by decide,
   (C9_ensure_started_idempotent wHang sys0).2.1 (by decide),
   (C9_ensure_started_idempotent wHang sys0).2.2⟩

/-- C10: a raised value that is not an `Exception` instance (e.g.
`SystemExit`) is not caught and wrapped into an `Err` response: the
worker loop sends nothing for that request and exits with the error
uncaught, so the process terminates without replying; the caller then
observes the worker-crash path — the raised `EOFError` (not the
callee's own error value) plus a restarted worker. -/
theorem C10_nonexception_escapes_worker {V A : Type}
    (dflt : V) (w : WorkerSt V A) (s : Sys) (x : A) {e : PyError}
    (hb : w.fn_bytes x = Beh.raiseE e)
    (he : e.cls.isExceptionInstance = false) :
    (worker_loop [WireMsg.request w.fn_bytes x]).sent = [] ∧
    (worker_loop [WireMsg.request w.fn_bytes x]).exit =
      LoopExit.uncaught e ∧
    (wrapper dflt w s x).1 =
      WrapResult.raisedE { cls := ExcClass.EOFErrorC, msg := "EOFError" } ∧
    (wrapper dflt w s x).1 ≠ WrapResult.raisedE e ∧
    ∃ pNew, (wrapper dflt w s x).2.1.proc = some pNew ∧
      pNew ∈ (wrapper dflt w s x).2.2.alive := by
  have hresp : behResponse (w.fn_bytes x) = none := by
    rw [hb]; simp [behResponse, he]
  have hkill : behKillsWorker (w.fn_bytes x) = true := by
    rw [hb]; simp [behKillsWorker, he]
  obtain ⟨pid, hp, heq⟩ := wrapper_die_eq dflt w s x hresp hkill
  obtain ⟨h1, h2, h3, h4, h5⟩ :=
    restart_spec (ensure_started w s).1
      ((ensure_started w s).2.killPid pid)
  rw [hp] at h5
  refine ⟨?_, ?_, ?_, ?_, ⟨(ensure_started w s).2.nextId, ?_, ?_⟩⟩
  · simp [worker_loop, hb, he]
  · simp [worker_loop, hb, he]
  · rw [heq]
  · rw [heq]
    intro hcon
    have hee : ({ cls := ExcClass.EOFErrorC, msg := "EOFError" } : PyError)
        = e := WrapResult.raisedE.inj hcon
    rw [← hee] at he
    simp [ExcClass.isExceptionInstance] at he
  · rw [heq]; exact h1
  · rw [heq, h5]; exact List.mem_cons_self _ _

/-- Witness for C10 at `SystemExit` from the initial state. -/
theorem C10_nonexception_escapes_worker_witness :
    wExit.fn_bytes 0 =
      Beh.raiseE { cls := ExcClass.SystemExitC, msg := "0" } ∧
    ExcClass.SystemExitC.isExceptionInstance = false ∧
    ((worker_loop [WireMsg.request wExit.fn_bytes 0]).sent = [] ∧
    (worker_loop [WireMsg.request wExit.fn_bytes 0]).exit =
      LoopExit.uncaught { cls := ExcClass.SystemExitC, msg := "0" } ∧
    (wrapper (-1 : Int) wExit sys0 0).1 =
      WrapResult.raisedE { cls := ExcClass.EOFErrorC, msg := "EOFError" } ∧
    (wrapper (-1 : Int) wExit sys0 0).1 ≠
      WrapResult.raisedE { cls := ExcClass.SystemExitC, msg := "0" } ∧
    ∃ pNew, (wrapper (-1 : Int) wExit sys0 0).2.1.proc = some pNew ∧
      pNew ∈ (wrapper (-1 : Int) wExit sys0 0).2.2.alive) :=
  ⟨rfl, rfl,
   C10_nonexception_escapes_worker (-1) wExit sys0 0 rfl rfl⟩
